import Mathlib

/-!
Verification of the x-knob rotary widget (src/xknob.js).

The development shallowly embeds the widget's value pipeline and its global
drag-session state machine.  JavaScript numbers are idealized as real numbers
extended with the non-finite values `NaN` and the two infinities; the value
`null` (used by the `min`/`max` fields and by the global drag variables) is a
further constructor.  The value-transform core is stated over an arbitrary
linear ordered field with a floor so that it stays executable at `Rat`; the
drag model is instantiated at `Real` because angles involve `Real.pi`.
-/

namespace XKnob

open Real

/-- A JavaScript value as stored in the widget's numeric fields: `null`,
`NaN`, the two infinities, or a finite number. -/
inductive JSVal (α : Type) where
  | null : JSVal α
  | nan : JSVal α
  | posInf : JSVal α
  | negInf : JSVal α
  | real (x : α) : JSVal α
deriving DecidableEq, Repr

namespace JSVal

/-- `Number.isFinite`: true exactly on finite numbers (false on `null`,
`NaN` and the infinities). -/
def isFinite : JSVal α → Bool
  | .real _ => true
  | _ => false

end JSVal

variable {α : Type} [LinearOrderedField α] [FloorRing α]

/-- `parseFloat` applied to one of our values: numbers parse to themselves
(including the infinities, whose string forms parse back), `null` and `NaN`
parse to `NaN`. -/
def js_parseFloat : JSVal α → JSVal α
  | .real r => .real r
  | .posInf => .posInf
  | .negInf => .negInf
  | _ => .nan

/-- `parseInt(x, 10)` applied to one of our values: finite numbers truncate
toward zero; `null`, `NaN` and the infinities parse to `NaN`. -/
def js_parseInt : JSVal α → JSVal α
  | .real r => .real (if 0 ≤ r then ((⌊r⌋ : ℤ) : α) else ((⌈r⌉ : ℤ) : α))
  | _ => .nan

/-- src/xknob.js lines 7-10: `float_or_default`. -/
def float_or_default (x d : JSVal α) : JSVal α :=
  match js_parseFloat x with
  | .nan => d
  | y => y

/-- src/xknob.js lines 11-14: `int_or_default`. -/
def int_or_default (x d : JSVal α) : JSVal α :=
  match js_parseInt x with
  | .nan => d
  | y => y

/-- src/xknob.js lines 264-285: the body of `_update_value`, as a pure
function of the four fields, returning the new `_value`.  The four steps of
the source are kept in source order: non-finite value to 0, snap to a circle
division, clamp to max, clamp to min. -/
def update_value (value divisions mn mx : JSVal α) : α :=
  -- Sanity check.
  let v0 : α := match value with
    | .real x => x
    | _ => 0
  -- Snapping to one of the circle divisions.
  let v1 : α := match divisions with
    | .real d => if d ≥ 2 then ((round (v0 * d) : ℤ) : α) / d else v0
    | _ => v0
  -- Clamping to the defined min..max range.
  let v2 : α := match mx with
    | .real m => if v1 > m then m else v1
    | _ => v1
  match mn with
  | .real m => if v2 < m then m else v2
  | _ => v2

/-- The widget's numeric fields (src/xknob.js lines 161-165).  The
`svgusehref` field and the rendering tree are outside the value/drag core. -/
structure Knob (α : Type) where
  _divisions : JSVal α
  _min : JSVal α
  _max : JSVal α
  _value : JSVal α
deriving DecidableEq, Repr

namespace Knob

/-- The `value` property getter (src/xknob.js lines 227-229). -/
def value (k : Knob α) : JSVal α := k._value

/-- The `divisions` property getter (src/xknob.js lines 191-193). -/
def divisions (k : Knob α) : JSVal α := k._divisions

/-- The `min` property getter (src/xknob.js lines 200-202). -/
def min (k : Knob α) : JSVal α := k._min

/-- The `max` property getter (src/xknob.js lines 209-211). -/
def max (k : Knob α) : JSVal α := k._max

/-- The `_update_value` method: recompute `_value` from the fields
(src/xknob.js lines 264-285; the trailing `_update_gfx_rotation` call is
rendering only). -/
def _update_value (k : Knob α) : Knob α :=
  { k with _value := .real (update_value k._value k._divisions k._min k._max) }

/-- The `value` property setter (src/xknob.js lines 230-233). -/
def set_value (k : Knob α) (x : JSVal α) : Knob α :=
  Knob._update_value { k with _value := float_or_default x (.real 0) }

/-- The `min` property setter (src/xknob.js lines 203-206). -/
def set_min (k : Knob α) (x : JSVal α) : Knob α :=
  Knob._update_value { k with _min := float_or_default x .null }

/-- The `max` property setter (src/xknob.js lines 212-215). -/
def set_max (k : Knob α) (x : JSVal α) : Knob α :=
  Knob._update_value { k with _max := float_or_default x .null }

/-- The `divisions` property setter (src/xknob.js lines 194-197). -/
def set_divisions (k : Knob α) (x : JSVal α) : Knob α :=
  Knob._update_value { k with _divisions := int_or_default x (.real 0) }

/-- The field defaults established by `createdCallback`
(src/xknob.js lines 160-165). -/
def init : Knob α := ⟨.real 0, .null, .null, .real 0⟩

end Knob

/-- One property assignment on a widget. -/
inductive KnobOp (α : Type) where
  | set_value (x : JSVal α) : KnobOp α
  | set_min (x : JSVal α) : KnobOp α
  | set_max (x : JSVal α) : KnobOp α
  | set_divisions (x : JSVal α) : KnobOp α

/-- Run one property assignment. -/
def applyOp (k : Knob α) : KnobOp α → Knob α
  | .set_value x => k.set_value x
  | .set_min x => k.set_min x
  | .set_max x => k.set_max x
  | .set_divisions x => k.set_divisions x

/-- Run a sequence of property assignments. -/
def applyOps (k : Knob α) : List (KnobOp α) → Knob α
  | [] => k
  | op :: rest => applyOps (applyOp k op) rest

/-! The spec's ValueTransform (§4.2), written from the spec's own wording,
step by step, to be compared with `update_value` from the source. -/

namespace ValueTransform

/-- Spec step 1: if `raw` is not finite, replace with `0`. -/
noncomputable def sanitize (raw : JSVal ℝ) : ℝ :=
  match raw with
  | .real x => x
  | _ => 0

/-- Spec step 2: if `divisions` is finite and `≥ 2`, set
`raw := round(raw * divisions) / divisions`. -/
noncomputable def quantize (divisions : JSVal ℝ) (raw : ℝ) : ℝ :=
  match divisions with
  | .real d => if d ≥ 2 then ((round (raw * d) : ℤ) : ℝ) / d else raw
  | _ => raw

/-- Spec step 3: if `max` is finite and `raw > max`, set `raw := max`. -/
noncomputable def clamp_high (mx : JSVal ℝ) (raw : ℝ) : ℝ :=
  match mx with
  | .real m => if raw > m then m else raw
  | _ => raw

/-- Spec step 4: if `min` is finite and `raw < min`, set `raw := min`. -/
noncomputable def clamp_low (mn : JSVal ℝ) (raw : ℝ) : ℝ :=
  match mn with
  | .real m => if raw < m then m else raw
  | _ => raw

/-- The spec's `apply`: the four steps in the spec's order
(sanitize, quantize, clamp-high, clamp-low). -/
noncomputable def apply (raw divisions mn mx : JSVal ℝ) : ℝ :=
  clamp_low mn (clamp_high mx (quantize divisions (sanitize raw)))

end ValueTransform

/-! The drag-session state machine, instantiated at `Real` since angles are
computed with `Real.pi`. -/

/-- The pointer data of a move/up event: mouse client coordinates and,
when present, the first touch point's client coordinates. -/
structure PointerData where
  clientX : ℝ
  clientY : ℝ
  touch : Option (ℝ × ℝ)

/-- The cursor position used by `_get_mouse_angle` (src/xknob.js lines
312-318): the first touch point when present, else the mouse position. -/
def pointer_position (ev : PointerData) : ℝ × ℝ :=
  match ev.touch with
  | some t => t
  | none => (ev.clientX, ev.clientY)

/-- src/xknob.js lines 308-325: `_get_mouse_angle`.  `Math.atan2(y, x)` is
the argument of the complex number `x + y*I`, in `(-pi, pi]`; the source
then adds `pi / 2`.  The widget's center (resolved by the external layout
via `_get_center_position`) is a parameter. -/
noncomputable def _get_mouse_angle (center : ℝ × ℝ) (ev : PointerData) : ℝ :=
  Complex.arg ⟨(pointer_position ev).1 - center.1, (pointer_position ev).2 - center.2⟩ + π / 2

/-- src/xknob.js lines 128-136: the angle-delta wraparound correction in
`drag_rotate`. -/
noncomputable def wrap_delta (new_angle old_angle : ℝ) : ℝ :=
  let delta_angle := new_angle - old_angle
  -- Because this is a circle
  let delta_angle := if delta_angle < 0 then delta_angle + π * 2 else delta_angle
  -- Converting from 0..360 to -180..180.
  if delta_angle > π then delta_angle - π * 2 else delta_angle

/-- JavaScript `+` of a stored value and a finite number: `null` coerces to
`0`, `NaN` propagates, an infinity plus a finite number stays put. -/
def JSVal.addReal : JSVal ℝ → ℝ → JSVal ℝ
  | .real r, d => .real (r + d)
  | .null, d => .real d
  | .nan, _ => .nan
  | .posInf, _ => .posInf
  | .negInf, _ => .negInf

/-- JavaScript strict equality `===` on two stored values: `NaN` is equal
to nothing (itself included); otherwise equality of the values. -/
def jsStrictEq [DecidableEq β] : JSVal β → JSVal β → Bool
  | .nan, _ => false
  | _, .nan => false
  | a, b => decide (a = b)

/-- The notifications the core can request from the event bus. -/
inductive DOMEvent where
  | input : DOMEvent
  | change : DOMEvent
deriving DecidableEq, Repr

/-- The global state of the module (src/xknob.js lines 28-40) together with
the single widget it may drag.  `center` is the widget's rotation center as
the external layout resolves it; `listeners` records whether the global
mousemove/mouseup/touchmove/touchend listeners are attached to the
document.  `xknob_being_dragged` is `true` when the global holds the widget
and `false` when it is `null`. -/
structure XKnobState where
  knob : Knob ℝ
  center : ℝ × ℝ
  xknob_being_dragged : Bool
  xknob_drag_previous_angle : Option ℝ
  xknob_drag_previous_value : JSVal ℝ
  xknob_drag_initial_value : JSVal ℝ
  listeners : Bool

/-- A pointer-down event as seen by `start_dragging`: the device and button,
whether the `currentTarget`-to-`ShadowRoot` walk of lines 78-84 resolves to
a host widget, and the pointer data. -/
inductive StartEv where
  | mousedown (button : ℤ) (resolves : Bool) (pos : PointerData) : StartEv
  | touchstart (resolves : Bool) (pos : PointerData) : StartEv

/-- Whether the shadow-root walk finds the widget. -/
def StartEv.resolves : StartEv → Bool
  | .mousedown _ r _ => r
  | .touchstart r _ => r

/-- The pointer data of a start event. -/
def StartEv.pos : StartEv → PointerData
  | .mousedown _ _ p => p
  | .touchstart _ p => p

/-- src/xknob.js lines 78-94: the tail of `start_dragging` after the button
check: resolve the widget; on success suppress the default action, record
the session fields and attach the document listeners. -/
noncomputable def start_accept (s : XKnobState) (ev : StartEv) : XKnobState × Bool :=
  if !ev.resolves then (s, false)
  else
    ({ s with
        xknob_being_dragged := true,
        xknob_drag_previous_angle := some (_get_mouse_angle s.center ev.pos),
        xknob_drag_previous_value := s.knob.value,
        xknob_drag_initial_value := s.knob.value,
        listeners := true }, true)

/-- src/xknob.js lines 66-95: `start_dragging`.  The returned boolean is
whether `ev.preventDefault()` ran.  The handler first detaches the document
listeners and nulls the dragged-widget global, then rejects a mousedown
whose button is not the primary one. -/
noncomputable def start_dragging (s : XKnobState) (ev : StartEv) : XKnobState × Bool :=
  let s1 := { s with listeners := false, xknob_being_dragged := false }
  match ev with
  | .mousedown button _ _ =>
      -- Only handling clicks with the left mouse button.
      if button ≠ 0 then (s1, false)
      else start_accept s1 ev
  | .touchstart _ _ => start_accept s1 ev

/-- src/xknob.js lines 99-114: `stop_dragging`, returning the new state and
the notifications dispatched. -/
noncomputable def stop_dragging (s : XKnobState) : XKnobState × List DOMEvent :=
  if !s.xknob_being_dragged then
    ({ s with listeners := false }, [])
  else
    let evs := if !(jsStrictEq s.xknob_drag_initial_value s.knob.value)
      then [DOMEvent.change] else []
    ({ s with listeners := false, xknob_being_dragged := false }, evs)

/-- src/xknob.js lines 118-152: `drag_rotate`, returning the new state and
the notifications dispatched.  A `null` previous angle coerces to `0` in
the subtraction, and `JSVal.addReal` is the JavaScript `+` of the
previous-value global and the finite delta. -/
noncomputable def drag_rotate (s : XKnobState) (ev : PointerData) : XKnobState × List DOMEvent :=
  if !s.xknob_being_dragged then
    ({ s with listeners := false }, [])
  else
    let new_angle := _get_mouse_angle s.center ev
    let old_angle := s.xknob_drag_previous_angle.getD 0
    let delta_angle := wrap_delta new_angle old_angle
    let delta_value := delta_angle / π / 2
    let new_proposed_value := s.xknob_drag_previous_value.addReal delta_value
    let old_actual_value := s.knob.value
    let knob1 := s.knob.set_value new_proposed_value
    let new_actual_value := knob1.value
    let evs := if !(jsStrictEq old_actual_value new_actual_value)
      then [DOMEvent.input] else []
    ({ s with
        knob := knob1,
        xknob_drag_previous_angle := some new_angle,
        xknob_drag_previous_value := new_proposed_value }, evs)

/-- Process a list of move events during a drag, collecting the dispatched
notifications. -/
noncomputable def run_moves : XKnobState → List PointerData → XKnobState × List DOMEvent
  | s, [] => (s, [])
  | s, ev :: rest =>
      let r := drag_rotate s ev
      let r2 := run_moves r.1 rest
      (r2.1, r.2 ++ r2.2)

/-- The module state right after a widget's `createdCallback` with no
attributes: fresh widget, no drag in progress, globals `null`, no document
listeners. -/
noncomputable def init_state : XKnobState :=
  { knob := Knob.init
    center := (0, 0)
    xknob_being_dragged := false
    xknob_drag_previous_angle := none
    xknob_drag_previous_value := .null
    xknob_drag_initial_value := .null
    listeners := false }

/-- A sample pointer: one unit to the right of the origin. -/
def pRight : PointerData := ⟨1, 0, none⟩

/-- A sample pointer: one unit above the origin (screen y grows downward). -/
def pUp : PointerData := ⟨0, -1, none⟩

/-- A sample mid-drag state: dragging, previous angle `0`, accumulator and
initial value `0`. -/
noncomputable def mid_state : XKnobState :=
  { init_state with
      xknob_being_dragged := true
      xknob_drag_previous_angle := some 0
      xknob_drag_previous_value := .real 0
      xknob_drag_initial_value := .real 0 }

/-! Helper lemmas about the drag-session handlers. -/

/-- Strict equality of two finite numbers is equality of the numbers. -/
theorem jsStrictEq_real (a b : ℝ) :
    jsStrictEq (JSVal.real a) (JSVal.real b) = decide (a = b) := by
  by_cases hab : a = b <;> simp [jsStrictEq, hab]

/-- If `start_dragging` ends with a widget being dragged, the event was
accepted, and the resulting state is the session-start record. -/
theorem start_accepted_eq (s : XKnobState) (ev : StartEv)
    (h : (start_dragging s ev).1.xknob_being_dragged = true) :
    start_dragging s ev =
      ({ s with
          xknob_being_dragged := true,
          xknob_drag_previous_angle := some (_get_mouse_angle s.center ev.pos),
          xknob_drag_previous_value := s.knob.value,
          xknob_drag_initial_value := s.knob.value,
          listeners := true }, true) := by
  cases ev with
  | mousedown b r p =>
      by_cases hb : b ≠ 0
      · simp [start_dragging, hb] at h
      · cases r with
        | false => simp [start_dragging, start_accept, hb, StartEv.resolves] at h
        | true => simp [start_dragging, start_accept, hb, StartEv.resolves, StartEv.pos]
  | touchstart r p =>
      cases r with
      | false => simp [start_dragging, start_accept, StartEv.resolves] at h
      | true => simp [start_dragging, start_accept, StartEv.resolves, StartEv.pos]

/-- One `drag_rotate` step of an active session keeps the session active,
does not touch the initial value or the geometry, leaves a finite stored
value, and never dispatches `change`. -/
theorem drag_rotate_active (s : XKnobState) (ev : PointerData)
    (h : s.xknob_being_dragged = true) :
    (drag_rotate s ev).1.xknob_being_dragged = true ∧
    (drag_rotate s ev).1.center = s.center ∧
    (drag_rotate s ev).1.xknob_drag_initial_value = s.xknob_drag_initial_value ∧
    (∃ r : ℝ, (drag_rotate s ev).1.knob._value = JSVal.real r) ∧
    DOMEvent.change ∉ (drag_rotate s ev).2 := by
  unfold drag_rotate
  rw [h, if_neg (show ¬((!true) = true) by simp)]
  refine ⟨rfl, rfl, rfl, ⟨_, rfl⟩, ?_⟩
  dsimp only
  split_ifs <;> simp

/-- Running any list of moves from an active session keeps it active,
preserves the initial value, keeps the stored value finite (or untouched),
and never dispatches `change`. -/
theorem run_moves_active (ms : List PointerData) :
    ∀ s : XKnobState, s.xknob_being_dragged = true →
    (run_moves s ms).1.xknob_being_dragged = true ∧
    (run_moves s ms).1.xknob_drag_initial_value = s.xknob_drag_initial_value ∧
    ((run_moves s ms).1.knob._value = s.knob._value ∨
      ∃ r : ℝ, (run_moves s ms).1.knob._value = JSVal.real r) ∧
    DOMEvent.change ∉ (run_moves s ms).2 := by
  induction ms with
  | nil =>
      intro s h
      exact ⟨h, rfl, Or.inl rfl, by simp [run_moves]⟩
  | cons ev rest ih =>
      intro s h
      obtain ⟨h1, _, h3, h4, h5⟩ := drag_rotate_active s ev h
      obtain ⟨g1, g2, g3, g4⟩ := ih (drag_rotate s ev).1 h1
      refine ⟨g1, g2.trans h3, ?_, ?_⟩
      · rcases g3 with hcase | hcase
        · obtain ⟨r, hr⟩ := h4
          exact Or.inr ⟨r, hcase.trans hr⟩
        · exact Or.inr hcase
      · simp only [run_moves, List.mem_append]
        rintro (hc | hc)
        · exact h5 hc
        · exact g4 hc

/-- Ending a session that started from a state with finite stored value
`v0` recorded as the initial value: the moves dispatch no `change`, and the
pointer-up dispatches `change` exactly when the final stored value differs
from `v0`. -/
theorem stop_after_moves (S : XKnobState) (v0 : ℝ)
    (hS : S.xknob_being_dragged = true)
    (hinit : S.xknob_drag_initial_value = JSVal.real v0)
    (hknob : S.knob._value = JSVal.real v0)
    (ms : List PointerData) :
    DOMEvent.change ∉ (run_moves S ms).2 ∧
    (stop_dragging (run_moves S ms).1).2 =
      (if (run_moves S ms).1.knob._value ≠ JSVal.real v0
        then [DOMEvent.change] else []) := by
  obtain ⟨g1, g2, g3, g4⟩ := run_moves_active ms S hS
  refine ⟨g4, ?_⟩
  obtain ⟨vf, hvf⟩ : ∃ vf : ℝ, (run_moves S ms).1.knob._value = JSVal.real vf := by
    rcases g3 with hcase | hcase
    · exact ⟨v0, hcase.trans hknob⟩
    · exact hcase
  have ginit : (run_moves S ms).1.xknob_drag_initial_value = JSVal.real v0 :=
    g2.trans hinit
  unfold stop_dragging
  rw [g1, if_neg (show ¬((!true) = true) by simp), ginit]
  simp only [Knob.value, hvf, jsStrictEq_real]
  by_cases hv : vf = v0
  · subst hv
    simp
  · have h1 : ¬(v0 = vf) := fun hh => hv hh.symm
    have h2 : JSVal.real vf ≠ JSVal.real v0 := by
      simp only [ne_eq, JSVal.real.injEq]
      exact hv
    simp [h1, h2]

/-! Claim theorems about the value pipeline. -/

/-- C1: for every raw value and every configuration, the sanitization run on
every value assignment applies exactly the spec's four steps in the spec's
order: non-finite to `0`, then quantize when `divisions` is finite and at
least `2`, then clamp to a finite `max`, then clamp to a finite `min`; and
every `value` assignment routes through it.  Totality over all
real/NaN/Infinity inputs is inherent: `update_value` is a total function on
every `JSVal`. -/
theorem update_value_is_spec_pipeline :
    (∀ value divisions mn mx : JSVal ℝ,
      update_value value divisions mn mx = ValueTransform.apply value divisions mn mx) ∧
    (∀ (k : Knob ℝ) (x : JSVal ℝ),
      (k.set_value x)._value =
        .real (update_value (float_or_default x (.real 0)) k._divisions k._min k._max)) := by
  constructor
  · intro value divisions mn mx
    cases value <;> cases divisions <;> cases mn <;> cases mx <;> rfl
  · intro k x
    rfl

/-- C10: when `min` and `max` are both finite with `min > max`, the max
clamp runs first and the min clamp afterwards overrides it, so the
sanitization returns `min` on every input, and every assignment stores
exactly `min`. -/
theorem min_wins_when_min_gt_max (a b : ℝ) (hab : b < a) :
    (∀ value divisions : JSVal ℝ, update_value value divisions (.real a) (.real b) = a) ∧
    (∀ (k : Knob ℝ) (x : JSVal ℝ), k._min = .real a → k._max = .real b →
      (k.set_value x)._value = .real a) := by
  have key : ∀ value divisions : JSVal ℝ,
      update_value value divisions (.real a) (.real b) = a := by
    intro value divisions
    cases value <;> cases divisions <;>
      simp only [update_value] <;> split_ifs <;> linarith
  refine ⟨key, ?_⟩
  intro k x hmin hmax
  show JSVal.real (update_value (float_or_default x (.real 0)) k._divisions k._min k._max) = _
  rw [hmin, hmax, key]

/-- C5: the sanitization is not idempotent at clamp boundaries: with
`divisions = 2` and `max = 3/5` (finite, not a multiple of `1/2`), the
input `9/10` first sanitizes to the boundary `3/5`, but sanitizing that
result again re-quantizes it to `1/2`, off the boundary. -/
theorem update_value_not_idempotent_at_boundary :
    ∃ d mx v : ℝ, 2 ≤ d ∧ (¬ ∃ k : ℤ, mx = (k : ℝ) / d) ∧
      update_value (.real v) (.real d) .null (.real mx) = mx ∧
      update_value (.real (update_value (.real v) (.real d) .null (.real mx)))
          (.real d) .null (.real mx) ≠ mx := by
  have hr : round ((9 : ℝ)/10 * 2) = 2 := by
    have he : (9 : ℝ)/10 * 2 + 1/2 = 23/10 := by norm_num
    rw [round_eq, he, Int.floor_eq_iff]; norm_num
  have hr2 : round ((6 : ℝ)/5) = 1 := by
    have he : (6 : ℝ)/5 + 1/2 = 17/10 := by norm_num
    rw [round_eq, he, Int.floor_eq_iff]; norm_num
  refine ⟨2, 3/5, 9/10, by norm_num, ?_, ?_, ?_⟩
  · rintro ⟨k, hk⟩
    have h1 : (1 : ℝ) < (k : ℝ) := by linarith
    have h2 : (k : ℝ) < 2 := by linarith
    have h1' : (1 : ℤ) < k := by exact_mod_cast h1
    have h2' : k < (2 : ℤ) := by exact_mod_cast h2
    omega
  · simp only [update_value, hr]
    norm_num
  · simp only [update_value, hr]
    norm_num [hr2]

/-- C6 counterexample: assigning `-5` to `divisions` stores the negative
integer `-5`, which the getter then returns, so the field is not always
`≥ 0`. -/
theorem divisions_setter_stores_negative :
    (applyOps (Knob.init : Knob ℝ) [KnobOp.set_divisions (.real (-5))]).divisions
      = .real (-5 : ℝ) ∧ ((-5 : ℝ) < 0) := by
  constructor
  · show (Knob.set_divisions Knob.init (.real (-5)))._divisions = _
    have h5 : ⌈(-5 : ℝ)⌉ = -5 := by
      rw [Int.ceil_eq_iff]; norm_num
    simp [Knob.set_divisions, Knob._update_value, int_or_default, js_parseInt, h5]
  · norm_num

/-- C6 amended: after any sequence of property assignments starting from
the `createdCallback` defaults, the stored `divisions` field is always an
integer (the parsed integer, or the default `0`), but it is not clamped to
be nonnegative. -/
theorem divisions_always_integer :
    ∀ ops : List (KnobOp ℝ), ∃ n : ℤ,
      (applyOps (Knob.init : Knob ℝ) ops).divisions = .real (n : ℝ) := by
  have step : ∀ (k : Knob ℝ) (op : KnobOp ℝ),
      (∃ n : ℤ, k._divisions = .real (n : ℝ)) →
      ∃ n : ℤ, (applyOp k op)._divisions = .real (n : ℝ) := by
    rintro k op ⟨n, hn⟩
    cases op with
    | set_value x => exact ⟨n, hn⟩
    | set_min x => exact ⟨n, hn⟩
    | set_max x => exact ⟨n, hn⟩
    | set_divisions x =>
        cases x with
        | real r =>
            by_cases h : (0 : ℝ) ≤ r
            · exact ⟨⌊r⌋, by
                simp [applyOp, Knob.set_divisions, Knob._update_value,
                  int_or_default, js_parseInt, h]⟩
            · exact ⟨⌈r⌉, by
                simp [applyOp, Knob.set_divisions, Knob._update_value,
                  int_or_default, js_parseInt, h]⟩
        | null => exact ⟨0, by
            simp [applyOp, Knob.set_divisions, Knob._update_value,
              int_or_default, js_parseInt]⟩
        | nan => exact ⟨0, by
            simp [applyOp, Knob.set_divisions, Knob._update_value,
              int_or_default, js_parseInt]⟩
        | posInf => exact ⟨0, by
            simp [applyOp, Knob.set_divisions, Knob._update_value,
              int_or_default, js_parseInt]⟩
        | negInf => exact ⟨0, by
            simp [applyOp, Knob.set_divisions, Knob._update_value,
              int_or_default, js_parseInt]⟩
  suffices h : ∀ (ops : List (KnobOp ℝ)) (k : Knob ℝ),
      (∃ n : ℤ, k._divisions = .real (n : ℝ)) →
      ∃ n : ℤ, (applyOps k ops)._divisions = .real (n : ℝ) by
    intro ops
    exact h ops Knob.init ⟨0, by simp [Knob.init]⟩
  intro ops
  induction ops with
  | nil => intro k hk; exact hk
  | cons op rest ih => intro k hk; exact ih (applyOp k op) (step k op hk)

/-- C10 witness: with `min = 1 > max = 0`, the input `5` sanitizes to
`min = 1`. -/
theorem min_wins_when_min_gt_max_witness :
    update_value (.real 5) (.real 0) (.real 1) (.real 0) = (1 : ℝ) :=
  (min_wins_when_min_gt_max 1 0 (by norm_num)).1 (.real 5) (.real 0)

/-! Claim theorems about the drag-session state machine. -/

/-- C2: in a drag session (an accepted pointer-down from a state whose
stored value is the finite number `v0`, any list of pointer-moves, one
pointer-up), no `change` is dispatched during the moves, and the pointer-up
dispatches exactly one `change` when the value then differs from the value
captured at session start and none otherwise; in particular a drag whose
value returns to the starting value dispatches zero `change`
notifications. -/
theorem change_fired_once_at_pointer_up (s0 : XKnobState) (v0 : ℝ)
    (hval : s0.knob._value = JSVal.real v0) (ev : StartEv)
    (hacc : (start_dragging s0 ev).1.xknob_being_dragged = true)
    (ms : List PointerData) :
    DOMEvent.change ∉ (run_moves (start_dragging s0 ev).1 ms).2 ∧
    (stop_dragging (run_moves (start_dragging s0 ev).1 ms).1).2 =
      (if (run_moves (start_dragging s0 ev).1 ms).1.knob._value ≠ JSVal.real v0
        then [DOMEvent.change] else []) := by
  rw [congrArg Prod.fst (start_accepted_eq s0 ev hacc)]
  refine stop_after_moves _ v0 rfl ?_ ?_ ms
  · exact hval
  · exact hval

/-- C3: during an active drag session whose stored value is the finite
number `v`, a pointer-move dispatches `input` exactly when the
clamped/quantized stored value after the step's assignment differs from the
stored value just before the step (and dispatches nothing otherwise, even
when the unclamped proposed value moved). -/
theorem input_fired_iff_value_changed (s : XKnobState) (v : ℝ)
    (hv : s.knob._value = JSVal.real v) (h : s.xknob_being_dragged = true)
    (ev : PointerData) :
    (drag_rotate s ev).2 =
      (if (drag_rotate s ev).1.knob._value ≠ s.knob._value
        then [DOMEvent.input] else []) := by
  obtain ⟨w, hw⟩ := (drag_rotate_active s ev h).2.2.2.1
  have heq : (drag_rotate s ev).2 =
      (if !(jsStrictEq s.knob.value (drag_rotate s ev).1.knob.value)
        then [DOMEvent.input] else []) := by
    unfold drag_rotate
    rw [h, if_neg (show ¬((!true) = true) by simp)]
  rw [heq, hv]
  have hval : s.knob.value = JSVal.real v := hv
  have hval2 : (drag_rotate s ev).1.knob.value = JSVal.real w := hw
  rw [hval, hval2, hw, jsStrictEq_real]
  by_cases hvw : v = w
  · subst hvw
    simp
  · have hne : JSVal.real w ≠ JSVal.real v := by
      simp only [ne_eq, JSVal.real.injEq]
      exact fun hh => hvw hh.symm
    simp [hvw, hne]

/-- C4: for any two angles produced by `_get_mouse_angle` (each
`atan2 + pi/2`, hence in `(-pi/2, 3*pi/2]`), the wraparound-corrected delta
lies in `[-pi, pi]` — so the `console.assert` in `drag_rotate` never fires —
and a raw angular delta of `pi/2` yields a proposed-value change of exactly
`1/4` turn through `delta_value = delta_angle / pi / 2`. -/
theorem delta_angle_in_pi_range (c1 c2 : ℝ × ℝ) (e1 e2 : PointerData) :
    wrap_delta (_get_mouse_angle c2 e2) (_get_mouse_angle c1 e1) ∈ Set.Icc (-π) π ∧
    (_get_mouse_angle c2 e2 - _get_mouse_angle c1 e1 = π / 2 →
      wrap_delta (_get_mouse_angle c2 e2) (_get_mouse_angle c1 e1) / π / 2 = 1 / 4) := by
  have hπ := Real.pi_pos
  have hb1 := Complex.arg_mem_Ioc
    ⟨(pointer_position e1).1 - c1.1, (pointer_position e1).2 - c1.2⟩
  have hb2 := Complex.arg_mem_Ioc
    ⟨(pointer_position e2).1 - c2.1, (pointer_position e2).2 - c2.2⟩
  rw [Set.mem_Ioc] at hb1 hb2
  constructor
  · unfold _get_mouse_angle wrap_delta
    simp only [Set.mem_Icc]
    split_ifs <;> constructor <;> linarith [hb1.1, hb1.2, hb2.1, hb2.2]
  · intro hd
    have hw : wrap_delta (_get_mouse_angle c2 e2) (_get_mouse_angle c1 e1) = π / 2 := by
      unfold wrap_delta
      rw [hd]
      dsimp only
      rw [if_neg (show ¬(π / 2 < 0) by linarith), if_neg (show ¬(π / 2 > π) by linarith)]
    rw [hw]
    field_simp
    ring

/-- C4 witness: the center `(0,0)` with old pointer `(0,-1)` (angle `0`)
and new pointer `(1,0)` (angle `pi/2`) gives a raw delta of `pi/2` and a
value delta of exactly `1/4` turn. -/
theorem delta_angle_in_pi_range_witness :
    wrap_delta (_get_mouse_angle (0, 0) pRight) (_get_mouse_angle (0, 0) pUp) / π / 2
      = 1 / 4 := by
  have h1 : _get_mouse_angle (0, 0) pRight = π / 2 := by
    have hz : (⟨(pointer_position pRight).1 - (0:ℝ), (pointer_position pRight).2 - (0:ℝ)⟩ : ℂ)
        = 1 := by
      apply Complex.ext <;> simp [pointer_position, pRight]
    unfold _get_mouse_angle
    rw [hz, Complex.arg_one]
    ring
  have h2 : _get_mouse_angle (0, 0) pUp = 0 := by
    have hz : (⟨(pointer_position pUp).1 - (0:ℝ), (pointer_position pUp).2 - (0:ℝ)⟩ : ℂ)
        = -Complex.I := by
      apply Complex.ext <;> simp [pointer_position, pUp]
    unfold _get_mouse_angle
    rw [hz, Complex.arg_neg_I]
    ring
  apply (delta_angle_in_pi_range (0, 0) (0, 0) pUp pRight).2
  rw [h1, h2]
  ring

/-- C7 counterexample: a pointer-down with mouse button `2` starts no
session, but contrary to the claim its default action is not suppressed:
`start_dragging` returns before reaching `ev.preventDefault()`. -/
theorem nonprimary_mousedown_not_prevented :
    (start_dragging init_state (.mousedown 2 true pRight)).1.xknob_being_dragged = false ∧
    (start_dragging init_state (.mousedown 2 true pRight)).2 = false := by
  constructor
  · simp [start_dragging]
  · simp [start_dragging]

/-- C7 amended: a pointer-down from a mouse with a non-primary button makes
no IDLE-to-DRAGGING transition and is ignored WITHOUT suppressing its
default action (`preventDefault` runs only on acceptance); a transition is
accepted only for a touch-start or a primary-button mouse-down. -/
theorem nonprimary_mousedown_rejected_unprevented :
    (∀ (s : XKnobState) (b : ℤ) (r : Bool) (p : PointerData), b ≠ 0 →
      (start_dragging s (.mousedown b r p)).1.xknob_being_dragged = false ∧
      (start_dragging s (.mousedown b r p)).2 = false) ∧
    (∀ (s : XKnobState) (ev : StartEv),
      (start_dragging s ev).1.xknob_being_dragged = true →
      (∃ r p, ev = .touchstart r p) ∨ ∃ r p, ev = .mousedown 0 r p) := by
  constructor
  · intro s b r p hb
    constructor
    · simp [start_dragging, hb]
    · simp [start_dragging, hb]
  · intro s ev h
    cases ev with
    | mousedown b r p =>
        right
        by_cases hb : b ≠ 0
        · simp [start_dragging, hb] at h
        · push_neg at hb
          subst hb
          exact ⟨r, p, rfl⟩
    | touchstart r p => exact Or.inl ⟨r, p, rfl⟩

/-- C7 witness: a concrete non-primary mouse-down (button `2`) on the fresh
state is rejected and not default-suppressed. -/
theorem nonprimary_mousedown_rejected_unprevented_witness :
    (start_dragging init_state (.mousedown 2 true pUp)).1.xknob_being_dragged = false ∧
    (start_dragging init_state (.mousedown 2 true pUp)).2 = false :=
  nonprimary_mousedown_rejected_unprevented.1 init_state 2 true pUp (by norm_num)

/-- C8 counterexample: after a full drag (accepted touch-start, then
pointer-up), the three value/angle session globals still hold the ended
drag's data — only the active-widget global is cleared — so it is not the
case that all four session fields are cleared. -/
theorem stale_fields_after_stop :
    (stop_dragging (start_dragging init_state (.touchstart true pRight)).1).1.xknob_drag_previous_angle
        ≠ none ∧
    (stop_dragging (start_dragging init_state (.touchstart true pRight)).1).1.xknob_drag_previous_value
        ≠ JSVal.null ∧
    (stop_dragging (start_dragging init_state (.touchstart true pRight)).1).1.xknob_drag_initial_value
        ≠ JSVal.null := by
  have h : (start_dragging init_state (.touchstart true pRight)).1.xknob_being_dragged
      = true := rfl
  rw [congrArg Prod.fst (start_accepted_eq init_state (.touchstart true pRight) h)]
  refine ⟨?_, ?_, ?_⟩ <;> simp [stop_dragging, init_state, Knob.value, Knob.init]

/-- C8 amended: pointer-up clears only the active-widget global (and
detaches the document listeners); the previous-angle, proposed-value and
initial-value globals retain their last values, but every accepted session
start overwrites all three from the new session before any use. -/
theorem stop_clears_only_active_widget :
    (∀ s : XKnobState,
      (stop_dragging s).1.xknob_being_dragged = false ∧
      (stop_dragging s).1.listeners = false ∧
      (stop_dragging s).1.xknob_drag_previous_angle = s.xknob_drag_previous_angle ∧
      (stop_dragging s).1.xknob_drag_previous_value = s.xknob_drag_previous_value ∧
      (stop_dragging s).1.xknob_drag_initial_value = s.xknob_drag_initial_value) ∧
    (∀ (s : XKnobState) (ev : StartEv),
      (start_dragging s ev).1.xknob_being_dragged = true →
      (start_dragging s ev).1.xknob_drag_previous_angle
          = some (_get_mouse_angle s.center ev.pos) ∧
      (start_dragging s ev).1.xknob_drag_previous_value = s.knob.value ∧
      (start_dragging s ev).1.xknob_drag_initial_value = s.knob.value) := by
  constructor
  · intro s
    cases hb : s.xknob_being_dragged <;> simp [stop_dragging, hb]
  · intro s ev h
    rw [congrArg Prod.fst (start_accepted_eq s ev h)]
    exact ⟨rfl, rfl, rfl⟩

/-- C8 amended witness: on the fresh state, pointer-up leaves no active
widget; and a concrete accepted touch-start sets the previous-value global
from the widget. -/
theorem stop_clears_only_active_widget_witness :
    (stop_dragging init_state).1.xknob_being_dragged = false ∧
    (start_dragging init_state (.touchstart true pRight)).1.xknob_drag_previous_value
      = init_state.knob.value :=
  ⟨(stop_clears_only_active_widget.1 init_state).1,
    (stop_clears_only_active_widget.2 init_state (.touchstart true pRight) rfl).2.1⟩

/-- C9: a pointer-move or pointer-up with no active session changes no
widget field and dispatches nothing; its only effect is the defensive
removal of the document listeners, and processing it twice equals
processing it once. -/
theorem no_session_move_up_noop (s : XKnobState) (h : s.xknob_being_dragged = false)
    (ev : PointerData) :
    drag_rotate s ev = ({ s with listeners := false }, []) ∧
    stop_dragging s = ({ s with listeners := false }, []) ∧
    drag_rotate { s with listeners := false } ev = ({ s with listeners := false }, []) ∧
    stop_dragging { s with listeners := false } = ({ s with listeners := false }, []) := by
  refine ⟨?_, ?_, ?_, ?_⟩ <;> simp [drag_rotate, stop_dragging, h]

/-- C9 witness: the fresh state (no active session) with a concrete
pointer-move/pointer-up. -/
theorem no_session_move_up_noop_witness :
    drag_rotate init_state pRight = ({ init_state with listeners := false }, []) ∧
    stop_dragging init_state = ({ init_state with listeners := false }, []) ∧
    drag_rotate { init_state with listeners := false } pRight
        = ({ init_state with listeners := false }, []) ∧
    stop_dragging { init_state with listeners := false }
        = ({ init_state with listeners := false }, []) :=
  no_session_move_up_noop init_state rfl pRight

/-- C2 witness: a concrete accepted touch-start on the fresh state followed
by no moves and a pointer-up dispatches no `change`. -/
theorem change_fired_once_at_pointer_up_witness :
    DOMEvent.change ∉
      (run_moves (start_dragging init_state (.touchstart true pRight)).1 []).2 ∧
    (stop_dragging (run_moves (start_dragging init_state (.touchstart true pRight)).1 []).1).2 =
      (if (run_moves (start_dragging init_state (.touchstart true pRight)).1 []).1.knob._value
          ≠ JSVal.real 0 then [DOMEvent.change] else []) :=
  change_fired_once_at_pointer_up init_state 0 rfl (.touchstart true pRight) rfl []

/-- C3 witness: one pointer-move of an active session from value `0`. -/
theorem input_fired_iff_value_changed_witness :
    (drag_rotate mid_state pRight).2 =
      (if (drag_rotate mid_state pRight).1.knob._value ≠ mid_state.knob._value
        then [DOMEvent.input] else []) :=
  input_fired_iff_value_changed mid_state 0 rfl rfl pRight

end XKnob
